import Mathlib

set_option autoImplicit false

namespace AwsWebStacks

/-! Shallow embedding of `stack/assets.py`: the template fragment that declares
the two asset buckets (with their shared CORS configuration), the bucket
outputs, the asset-management IAM policy, and - unless the `USE_GOVCLOUD`
environment variable equals `on` - the two CloudFront distributions together
with their parameters, conditions and the distribution-domain output. -/

/-- Semantics of the CloudFormation intrinsic `Fn::Join` on character lists:
concatenate the parts with the delimiter between consecutive parts. -/
def joinWith (sep : List Char) : List (List Char) → List Char
  | [] => []
  | [a] => a
  | a :: b :: rest => a ++ sep ++ joinWith sep (b :: rest)

/-- Semantics of the CloudFormation intrinsic `Fn::Split` with a one-character
delimiter, on character lists. The result is never the empty list. -/
def splitCh (sep : Char) : List Char → List (List Char)
  | [] => [[]]
  | c :: cs =>
    if c = sep then
      [] :: splitCh sep cs
    else
      match splitCh sep cs with
      | [] => [[c]]
      | g :: gs => (c :: g) :: gs

/-- String-level `Fn::Join`. -/
def fnJoin (sep : String) (parts : List String) : String :=
  ⟨joinWith sep.data (parts.map String.data)⟩

/-- String-level `Fn::Split` (one-character delimiter, as used in the source:
`Split(";", ...)`). -/
def fnSplit (sep : Char) (s : String) : List String :=
  (splitCh sep s.data).map String.mk

/-- Semantics of the CloudFormation intrinsic `Fn::If`, with the gating
condition already evaluated to a boolean. -/
def fnIf {α : Type} (c : Bool) (t e : α) : α :=
  if c then t else e

/-- Modelled from the spec: the domain provider (`stack/domain.py`, which is
not under `src/`) exposes `no_alt_domains`, "a boolean has-no-alternates"
flag, true precisely when the list of alternate domains is empty. -/
def no_alt_domains (domain_name_alternates : List String) : Bool :=
  domain_name_alternates.isEmpty

/-- The `AllowedOrigins` expression of `common_bucket_conf`
(assets.py lines 33-45): `Split(";", Join("", ["https://", domain_name,
If(no_alt_domains, "", ";https://"), Join(";https://",
domain_name_alternates)]))`. -/
def corsAllowedOrigins (domain_name : String)
    (domain_name_alternates : List String) : List String :=
  fnSplit ';' (fnJoin "" [
    "https://", domain_name,
    fnIf (no_alt_domains domain_name_alternates) "" ";https://",
    fnJoin ";https://" domain_name_alternates])

theorem data_append (a b : String) : (a ++ b).data = a.data ++ b.data := by
  cases a; cases b; rfl

theorem mk_data (s : String) : String.mk s.data = s := by
  cases s; rfl

theorem splitCh_eq_single (sep : Char) (l : List Char) (h : sep ∉ l) :
    splitCh sep l = [l] := by
  induction l with
  | nil => rfl
  | cons c cs ih =>
    rw [List.mem_cons, not_or] at h
    obtain ⟨h1, h2⟩ := h
    have hc : ¬ c = sep := fun hh => h1 hh.symm
    simp [splitCh, hc, ih h2]

theorem splitCh_append_cons (sep : Char) (x y : List Char) (hx : sep ∉ x) :
    splitCh sep (x ++ sep :: y) = x :: splitCh sep y := by
  induction x with
  | nil => simp [splitCh]
  | cons c cs ih =>
    rw [List.mem_cons, not_or] at hx
    obtain ⟨h1, h2⟩ := hx
    have hc : ¬ c = sep := fun hh => h1 hh.symm
    simp [splitCh, hc, ih h2]

/-- The tail of the joined CORS-origins string contributed by the alternate
domains: for each alternate `a`, a `;https://` separator followed by `a`. -/
def altTail (H : List Char) : List (List Char) → List Char
  | [] => []
  | a :: rest => (';' :: H) ++ a ++ altTail H rest

theorem sep_join_eq_altTail (H : List Char) (a : List Char)
    (rest : List (List Char)) :
    (';' :: H) ++ joinWith (';' :: H) (a :: rest) = altTail H (a :: rest) := by
  induction rest generalizing a with
  | nil => simp [joinWith, altTail]
  | cons b r ih =>
    rw [show joinWith (';' :: H) (a :: b :: r)
          = a ++ (';' :: H) ++ joinWith (';' :: H) (b :: r) from rfl]
    rw [altTail, ← ih b]
    simp [List.append_assoc]

theorem splitCh_prefix_altTail (H : List Char) (hH : ';' ∉ H)
    (x : List Char) (hx : ';' ∉ x)
    (alts : List (List Char)) (ha : ∀ a ∈ alts, ';' ∉ a) :
    splitCh ';' (x ++ altTail H alts) = x :: alts.map (fun a => H ++ a) := by
  induction alts generalizing x with
  | nil => simpa [altTail] using splitCh_eq_single ';' x hx
  | cons a rest ih =>
    have hxa : ';' ∉ H ++ a := by
      rw [List.mem_append, not_or]
      exact ⟨hH, ha a (List.mem_cons_self a rest)⟩
    have harest : ∀ b ∈ rest, ';' ∉ b :=
      fun b hb => ha b (List.mem_cons_of_mem a hb)
    have hshape : x ++ altTail H (a :: rest)
        = x ++ ';' :: ((H ++ a) ++ altTail H rest) := by
      simp [altTail, List.append_assoc]
    rw [hshape, splitCh_append_cons ';' x _ hx, ih (H ++ a) hxa harest]
    simp

theorem mk_https_append (s : String) :
    String.mk ("https://".data ++ s.data) = "https://" ++ s := by
  rw [← data_append, mk_data]

theorem joined_data (d : String) (alts : List String) :
    (fnJoin "" ["https://", d,
      fnIf (no_alt_domains alts) "" ";https://",
      fnJoin ";https://" alts]).data
      = ("https://".data ++ d.data)
          ++ altTail "https://".data (alts.map String.data) := by
  cases alts with
  | nil => simp [fnJoin, fnIf, no_alt_domains, joinWith, altTail]
  | cons a rest =>
    show joinWith "".data
        ["https://".data, d.data, ";https://".data,
          joinWith ";https://".data (a.data :: rest.map String.data)]
      = ("https://".data ++ d.data)
          ++ altTail "https://".data (a.data :: rest.map String.data)
    rw [← sep_join_eq_altTail "https://".data a.data (rest.map String.data)]
    show joinWith [] _ = _
    rw [show (";https://".data : List Char)
          = ';' :: "https://".data from rfl]
    simp [joinWith, List.append_assoc]

/-- Claim C1: for a primary domain `d` and alternates `[a1, ..., an]` (domain
names, hence free of the `;` separator character), the computed CORS
allowed-origins list is exactly `["https://" ++ d, "https://" ++ a1, ...,
"https://" ++ an]`; in particular with zero alternates it is the singleton
`["https://" ++ d]` with no empty or dangling entry. -/
theorem cors_allowed_origins_correct (d : String) (alts : List String)
    (hd : ';' ∉ d.data) (ha : ∀ a ∈ alts, ';' ∉ a.data) :
    corsAllowedOrigins d alts
      = ("https://" ++ d) :: alts.map (fun a => "https://" ++ a) := by
  have hH : ';' ∉ "https://".data := by decide
  have hx : ';' ∉ "https://".data ++ d.data := by
    rw [List.mem_append, not_or]; exact ⟨hH, hd⟩
  have hmem : ∀ b ∈ alts.map String.data, ';' ∉ b := by
    intro b hb
    obtain ⟨s, hs, rfl⟩ := List.mem_map.mp hb
    exact ha s hs
  unfold corsAllowedOrigins fnSplit
  rw [joined_data d alts,
    splitCh_prefix_altTail "https://".data hH _ hx (alts.map String.data) hmem]
  rw [List.map_cons, mk_https_append d, List.map_map, List.map_map]
  congr 1

/-- A CloudFormation property that is either absent from a declaration,
present with a value, or gated by `If(condName, Ref("AWS::NoValue"), v)`
where `condName` names a condition registered on the template. -/
inductive CfnField (α : Type) where
  | absent
  | value (v : α)
  | ifNoValue (condName : String) (v : α)
  deriving DecidableEq

/-- Resolve a possibly gated property against the template's condition map:
`If(c, AWS::NoValue, v)` removes the property when condition `c` holds. -/
def CfnField.resolve {α : Type} (conds : List (String × Bool)) :
    CfnField α → Option α
  | .absent => none
  | .value v => some v
  | .ifNoValue c v =>
    match (conds.find? (fun p => p.1 == c)).map (fun p => p.2) with
    | some true => none
    | _ => some v

/-- One CORS rule of a bucket (`troposphere.s3.CorsRules`). -/
structure CorsRule where
  AllowedOrigins : List String
  AllowedMethods : List String
  AllowedHeaders : List String
  deriving DecidableEq

/-- The keyword arguments shared by both bucket declarations
(`common_bucket_conf`, assets.py lines 26-57). -/
structure CommonBucketConf where
  VersioningStatus : String
  DeletionPolicy : String
  CorsRules : List CorsRule
  deriving DecidableEq

/-- A bucket declaration (`troposphere.s3.Bucket`). -/
structure BucketDecl where
  title : String
  AccessControl : String
  conf : CommonBucketConf
  deriving DecidableEq

/-- A symbolic `GetAtt(resource, attribute)` reference. -/
inductive AttRef where
  | getAtt (resourceTitle : String) (attName : String)
  deriving DecidableEq

/-- An origin of a distribution (`troposphere.cloudfront.Origin` with an
`S3Origin` configuration). -/
structure OriginDecl where
  Id : String
  DomainName : AttRef
  OriginAccessIdentity : String
  deriving DecidableEq

/-- `troposphere.cloudfront.ForwardedValues`. -/
structure ForwardedValuesDecl where
  QueryString : Bool
  Headers : List String
  deriving DecidableEq

/-- `troposphere.cloudfront.DefaultCacheBehavior`. -/
structure DefaultCacheBehaviorDecl where
  TargetOriginId : String
  ForwardedValues : ForwardedValuesDecl
  ViewerProtocolPolicy : String
  deriving DecidableEq

/-- `troposphere.cloudfront.ViewerCertificate`. -/
structure ViewerCertificateDecl where
  AcmCertificateArn : String
  SslSupportMethod : String
  deriving DecidableEq

/-- `troposphere.cloudfront.DistributionConfig`. -/
structure DistributionConfigDecl where
  Aliases : CfnField (List String)
  Origins : List OriginDecl
  DefaultCacheBehavior : DefaultCacheBehaviorDecl
  Enabled : Bool
  ViewerCertificate : CfnField ViewerCertificateDecl
  deriving DecidableEq

/-- A distribution declaration (`troposphere.cloudfront.Distribution`). -/
structure DistributionDecl where
  title : String
  config : DistributionConfigDecl
  deriving DecidableEq

/-- A resource registered on the template. -/
inductive Resource where
  | bucket (b : BucketDecl)
  | distribution (d : DistributionDecl)
  deriving DecidableEq

/-- A template parameter declaration (title and CloudFormation type). -/
structure ParameterDecl where
  title : String
  paramType : String
  deriving DecidableEq

/-- A template output declaration. -/
structure OutputDecl where
  title : String
  Description : String
  Value : AttRef
  deriving DecidableEq

/-- The shared template accumulator (`stack/template.py` exposes a single
`troposphere.Template`): ordered lists of resources, outputs and parameters,
and the conditions dictionary. -/
structure Template where
  resources : List Resource
  outputs : List OutputDecl
  parameters : List ParameterDecl
  conditions : List (String × Bool)
  deriving DecidableEq

def Template.add_resource (t : Template) (r : Resource) : Template :=
  { t with resources := t.resources ++ [r] }

def Template.add_output (t : Template) (o : OutputDecl) : Template :=
  { t with outputs := t.outputs ++ [o] }

def Template.add_parameter (t : Template) (p : ParameterDecl) : Template :=
  { t with parameters := t.parameters ++ [p] }

/-- Dictionary update: `template.add_condition(name, cond)` assigns
`conditions[name] = cond`, replacing any earlier entry under `name`. -/
def upsertCondition (conds : List (String × Bool)) (name : String) (v : Bool) :
    List (String × Bool) :=
  if conds.any (fun p => p.1 == name) then
    conds.map (fun p => if p.1 == name then (name, v) else p)
  else
    conds ++ [(name, v)]

def Template.add_condition (t : Template) (name : String) (v : Bool) :
    Template :=
  { t with conditions := upsertCondition t.conditions name v }

/-- Look up a condition value by name in the template. -/
def Template.lookupCondition (t : Template) (name : String) : Option Bool :=
  (t.conditions.find? (fun p => p.1 == name)).map (fun p => p.2)

/-- The inputs of the fragment: the `USE_GOVCLOUD` environment variable (as
read by `os.environ.get`, absent or a string), the values supplied by the
domain provider (`stack/domain.py`), and the values of the three parameters
the fragment itself declares. -/
structure Config where
  USE_GOVCLOUD : Option String
  domain_name : String
  domain_name_alternates : List String
  DistributionAliases : List String
  MediaDistributionAlias : String
  MediaAcmCertificateArn : String
  deriving DecidableEq

/-- The `common_bucket_conf` dict (assets.py lines 26-57). -/
def common_bucket_conf (domain_name : String)
    (domain_name_alternates : List String) : CommonBucketConf :=
  { VersioningStatus := "Enabled"
    DeletionPolicy := "Retain"
    CorsRules := [{
      AllowedOrigins := corsAllowedOrigins domain_name domain_name_alternates
      AllowedMethods := ["POST", "PUT", "HEAD", "GET"]
      AllowedHeaders := ["*"] }] }

/-- The public bucket (assets.py lines 60-66); `PublicRead` is the
troposphere constant for the string `PublicRead`. -/
def assets_bucket (cfg : Config) : BucketDecl :=
  { title := "AssetsBucket"
    AccessControl := "PublicRead"
    conf := common_bucket_conf cfg.domain_name cfg.domain_name_alternates }

/-- The private bucket (assets.py lines 78-84). -/
def private_assets_bucket (cfg : Config) : BucketDecl :=
  { title := "PrivateAssetsBucket"
    AccessControl := "Private"
    conf := common_bucket_conf cfg.domain_name cfg.domain_name_alternates }

/-- One statement of an IAM policy document. -/
structure PolicyStatement where
  Effect : String
  Action : List String
  Resource : String
  deriving DecidableEq

/-- `troposphere.iam.Policy` as used here: a name and a statement list. -/
structure IamPolicy where
  PolicyName : String
  Statement : List PolicyStatement
  deriving DecidableEq

/-- The central asset-management policy (assets.py lines 96-122).
`arn_prefix` comes from `stack/common.py`; `Ref(bucket)` yields the bucket
name, passed in here as `assetsBucketRef` / `privateAssetsBucketRef`. -/
def assets_management_policy ( arn_prefix : String)
    (assetsBucketRef : String) (privateAssetsBucketRef : String) : IamPolicy :=
  { PolicyName := "AssetsManagementPolicy"
    Statement := [
      { Effect := "Allow"
        Action := ["s3:ListBucket"]
        Resource := fnJoin "" [ arn_prefix, ":s3:::", assetsBucketRef] },
      { Effect := "Allow"
        Action := ["s3:*"]
        Resource := fnJoin "" [ arn_prefix, ":s3:::", assetsBucketRef, "/*"] },
      { Effect := "Allow"
        Action := ["s3:ListBucket"]
        Resource := fnJoin "" [ arn_prefix, ":s3:::", privateAssetsBucketRef] },
      { Effect := "Allow"
        Action := ["s3:*"]
        Resource := fnJoin ""
          [ arn_prefix, ":s3:::", privateAssetsBucketRef, "/*"] }] }

/-- The condition name bound at assets.py line 173. -/
def no_media_distribution_alias : String := "NoMediaDistributionAlias"

/-- The condition name bound at assets.py line 187 (the same literal as
`no_media_distribution_alias`). -/
def no_media_acm_certificate_arn : String := "NoMediaDistributionAlias"

/-- The primary CloudFront distribution (assets.py lines 135-165). -/
def distribution (cfg : Config) : DistributionDecl :=
  { title := "AssetsDistribution"
    config := {
      Aliases := .value cfg.DistributionAliases
      Origins := [{
        Id := "Assets"
        DomainName := .getAtt "AssetsBucket" "DomainName"
        OriginAccessIdentity := "" }]
      DefaultCacheBehavior := {
        TargetOriginId := "Assets"
        ForwardedValues := {
          QueryString := true
          Headers := ["Origin", "Access-Control-Request-Headers",
            "Access-Control-Request-Method"] }
        ViewerProtocolPolicy := "allow-all" }
      Enabled := true
      ViewerCertificate := .absent } }

/-- The secondary (media) CloudFront distribution
(assets.py lines 193-231). -/
def media_distribution (cfg : Config) : DistributionDecl :=
  { title := "MediaAssetsDistribution"
    config := {
      Aliases := .ifNoValue no_media_distribution_alias
        [cfg.MediaDistributionAlias]
      Origins := [{
        Id := "Assets"
        DomainName := .getAtt "PrivateAssetsBucket" "DomainName"
        OriginAccessIdentity := "" }]
      DefaultCacheBehavior := {
        TargetOriginId := "Assets"
        ForwardedValues := {
          QueryString := true
          Headers := ["Origin", "Access-Control-Request-Headers",
            "Access-Control-Request-Method"] }
        ViewerProtocolPolicy := "allow-all" }
      Enabled := true
      ViewerCertificate := .ifNoValue no_media_acm_certificate_arn
        { AcmCertificateArn := cfg.MediaAcmCertificateArn
          SslSupportMethod := "sni-only" } } }

/-- Top-to-bottom registration performed by assets.py against the shared
template, with the module-level `if` on `USE_GOVCLOUD` (line 125). The
condition values are the `Equals(Ref(param), "")` tests evaluated at the
supplied parameter values. -/
def buildFragment (cfg : Config) : Template :=
  let t : Template := { resources := [], outputs := [],
                        parameters := [], conditions := [] }
  let t := t.add_resource (.bucket (assets_bucket cfg))
  let t := t.add_output
    { title := "AssetsBucketDomainName"
      Description := "Assets bucket domain name"
      Value := .getAtt "AssetsBucket" "DomainName" }
  let t := t.add_resource (.bucket (private_assets_bucket cfg))
  let t := t.add_output
    { title := "PrivateAssetsBucketDomainName"
      Description := "Private assets bucket domain name"
      Value := .getAtt "PrivateAssetsBucket" "DomainName" }
  if cfg.USE_GOVCLOUD ≠ some "on" then
    let t := t.add_parameter
      { title := "DistributionAliases", paramType := "CommaDelimitedList" }
    let t := t.add_resource (.distribution (distribution cfg))
    let t := t.add_parameter
      { title := "MediaDistributionAlias", paramType := "String" }
    let t := t.add_condition no_media_distribution_alias
      (cfg.MediaDistributionAlias == "")
    let t := t.add_parameter
      { title := "MediaAcmCertificateArn", paramType := "String" }
    let t := t.add_condition no_media_acm_certificate_arn
      (cfg.MediaAcmCertificateArn == "")
    let t := t.add_resource (.distribution (media_distribution cfg))
    t.add_output
      { title := "AssetsDistributionDomainName"
        Description := "The assest CDN domain name"
        Value := .getAtt "AssetsDistribution" "DomainName" }
  else
    t

/-- The bucket declarations registered on a template, in order. -/
def Template.buckets (t : Template) : List BucketDecl :=
  t.resources.filterMap (fun r =>
    match r with
    | .bucket b => some b
    | .distribution _ => none)

/-- The distribution declarations registered on a template, in order. -/
def Template.distributions (t : Template) : List DistributionDecl :=
  t.resources.filterMap (fun r =>
    match r with
    | .bucket _ => none
    | .distribution d => some d)

theorem fnJoin_empty_three (x y z : String) :
    fnJoin "" [x, y, z] = x ++ y ++ z := by
  apply String.ext
  simp only [fnJoin, List.map]
  simp [joinWith, data_append, List.append_assoc]

theorem fnJoin_empty_four (x y z w : String) :
    fnJoin "" [x, y, z, w] = x ++ y ++ z ++ w := by
  apply String.ext
  simp only [fnJoin, List.map]
  simp [joinWith, data_append, List.append_assoc]

/-- Evaluation of the fragment when `USE_GOVCLOUD` is not `on`: every
declaration is registered; the second `add_condition` call replaces the
first because both use the literal name `NoMediaDistributionAlias`. -/
theorem buildFragment_off (cfg : Config) (h : cfg.USE_GOVCLOUD ≠ some "on") :
    buildFragment cfg = {
      resources := [.bucket (assets_bucket cfg),
        .bucket (private_assets_bucket cfg),
        .distribution (distribution cfg),
        .distribution (media_distribution cfg)]
      outputs := [
        { title := "AssetsBucketDomainName"
          Description := "Assets bucket domain name"
          Value := .getAtt "AssetsBucket" "DomainName" },
        { title := "PrivateAssetsBucketDomainName"
          Description := "Private assets bucket domain name"
          Value := .getAtt "PrivateAssetsBucket" "DomainName" },
        { title := "AssetsDistributionDomainName"
          Description := "The assest CDN domain name"
          Value := .getAtt "AssetsDistribution" "DomainName" }]
      parameters := [
        { title := "DistributionAliases", paramType := "CommaDelimitedList" },
        { title := "MediaDistributionAlias", paramType := "String" },
        { title := "MediaAcmCertificateArn", paramType := "String" }]
      conditions := [("NoMediaDistributionAlias",
        cfg.MediaAcmCertificateArn == "")] } := by
  simp only [buildFragment]
  rw [if_pos h]
  rfl

/-- Evaluation of the fragment when `USE_GOVCLOUD` equals `on`: only the
buckets and their outputs are registered. -/
theorem buildFragment_on (cfg : Config) (h : cfg.USE_GOVCLOUD = some "on") :
    buildFragment cfg = {
      resources := [.bucket (assets_bucket cfg),
        .bucket (private_assets_bucket cfg)]
      outputs := [
        { title := "AssetsBucketDomainName"
          Description := "Assets bucket domain name"
          Value := .getAtt "AssetsBucket" "DomainName" },
        { title := "PrivateAssetsBucketDomainName"
          Description := "Private assets bucket domain name"
          Value := .getAtt "PrivateAssetsBucket" "DomainName" }]
      parameters := []
      conditions := [] } := by
  simp only [buildFragment]
  rw [if_neg (fun hn => hn h)]
  rfl

/-- A sample input with the government-cloud flag off, a non-empty media
alias and a non-empty certificate ARN. -/
def sampleConfig : Config :=
  { USE_GOVCLOUD := none
    domain_name := "example.com"
    domain_name_alternates := ["alt1.com", "alt2.com"]
    DistributionAliases := ["static.example.com"]
    MediaDistributionAlias := "media.example.com"
    MediaAcmCertificateArn :=
      "arn:aws:acm:us-east-1:123456789012:certificate/abc" }

/-- The sample input with the government-cloud flag on. -/
def govConfig : Config :=
  { sampleConfig with USE_GOVCLOUD := some "on" }

/-- Input exhibiting the condition-name collision: the media alias parameter
is empty while the certificate ARN parameter is not. -/
def bugConfig : Config :=
  { sampleConfig with MediaDistributionAlias := "" }

/-- Input with a non-empty media alias and an empty certificate ARN. -/
def bugConfig2 : Config :=
  { sampleConfig with MediaAcmCertificateArn := "" }

/-- Witness for claim C1, at the primary domain `example.com` with alternates
`alt1.com` and `alt2.com`, and with zero alternates. -/
theorem cors_allowed_origins_correct_witness :
    (';' ∉ "example.com".data)
    ∧ (∀ a ∈ (["alt1.com", "alt2.com"] : List String), ';' ∉ a.data)
    ∧ corsAllowedOrigins "example.com" ["alt1.com", "alt2.com"]
        = ["https://example.com", "https://alt1.com", "https://alt2.com"]
    ∧ corsAllowedOrigins "example.com" [] = ["https://example.com"] :=
  ⟨by decide, by decide,
    (cors_allowed_origins_correct "example.com" ["alt1.com", "alt2.com"]
      (by decide) (by decide)).trans (by decide),
    (cors_allowed_origins_correct "example.com" []
      (by decide) (by decide)).trans (by decide)⟩

/-- Claim C2: the access-policy document contains exactly 4 allow statements,
and for each bucket one `s3:ListBucket` statement on
`<partition-prefix>:s3:::<bucket-name>` and one `s3:*` statement on
`<partition-prefix>:s3:::<bucket-name>/*`. -/
theorem assets_management_policy_four_statements
    ( arn_prefix assetsName privateName : String) :
    (assets_management_policy arn_prefix assetsName privateName).Statement
      = [⟨"Allow", ["s3:ListBucket"], arn_prefix ++ ":s3:::" ++ assetsName⟩,
         ⟨"Allow", ["s3:*"], arn_prefix ++ ":s3:::" ++ assetsName ++ "/*"⟩,
         ⟨"Allow", ["s3:ListBucket"], arn_prefix ++ ":s3:::" ++ privateName⟩,
         ⟨"Allow", ["s3:*"], arn_prefix ++ ":s3:::" ++ privateName ++ "/*"⟩]
    ∧ (assets_management_policy arn_prefix assetsName
        privateName).Statement.length = 4 := by
  constructor
  · simp only [assets_management_policy, fnJoin_empty_three, fnJoin_empty_four]
  · rfl

/-- Claim C3: with the government-cloud flag on, the fragment registers no
distribution, no distribution parameter, no condition and no
distribution-domain output, while the buckets, the bucket outputs and the
(unconditionally constructed) management policy are still produced. -/
theorem govcloud_suppresses_distributions (cfg : Config)
    (h : cfg.USE_GOVCLOUD = some "on") :
    (buildFragment cfg).resources
      = [.bucket (assets_bucket cfg), .bucket (private_assets_bucket cfg)]
    ∧ (buildFragment cfg).outputs
      = [{ title := "AssetsBucketDomainName"
           Description := "Assets bucket domain name"
           Value := .getAtt "AssetsBucket" "DomainName" },
         { title := "PrivateAssetsBucketDomainName"
           Description := "Private assets bucket domain name"
           Value := .getAtt "PrivateAssetsBucket" "DomainName" }]
    ∧ (buildFragment cfg).parameters = []
    ∧ (buildFragment cfg).conditions = []
    ∧ (buildFragment cfg).distributions = []
    ∧ (∀ p a b : String,
        (assets_management_policy p a b).Statement.length = 4) := by
  rw [buildFragment_on cfg h]
  exact ⟨rfl, rfl, rfl, rfl, rfl, fun p a b => rfl⟩

/-- Witness for claim C3 at a concrete government-cloud input. -/
theorem govcloud_suppresses_distributions_witness :
    govConfig.USE_GOVCLOUD = some "on"
    ∧ (buildFragment govConfig).parameters = []
    ∧ (buildFragment govConfig).conditions = []
    ∧ (buildFragment govConfig).distributions = [] :=
  ⟨rfl, (govcloud_suppresses_distributions govConfig rfl).2.2.1,
    (govcloud_suppresses_distributions govConfig rfl).2.2.2.1,
    (govcloud_suppresses_distributions govConfig rfl).2.2.2.2.1⟩

/-- Claim C4 (code-bug evidence): because the condition registered at
assets.py line 188 reuses the literal name `NoMediaDistributionAlias`, the
alias gate of the secondary distribution actually tests the certificate-ARN
parameter. At `MediaDistributionAlias = ""` with a non-empty certificate ARN
the declaration keeps its `Aliases` field with value `[""]` instead of
omitting it; conversely with a non-empty alias and an empty certificate ARN
the `Aliases` field is dropped. -/
theorem media_alias_gate_evaluates_certificate_condition :
    bugConfig.MediaDistributionAlias = ""
    ∧ Resource.distribution (media_distribution bugConfig)
        ∈ (buildFragment bugConfig).resources
    ∧ CfnField.resolve (buildFragment bugConfig).conditions
        (media_distribution bugConfig).config.Aliases = some [""]
    ∧ bugConfig2.MediaDistributionAlias = "media.example.com"
    ∧ CfnField.resolve (buildFragment bugConfig2).conditions
        (media_distribution bugConfig2).config.Aliases = none := by
  refine ⟨rfl, ?_, ?_, rfl, ?_⟩
  · rw [buildFragment_off bugConfig (by decide)]
    simp
  · rw [buildFragment_off bugConfig (by decide)]
    rfl
  · rw [buildFragment_off bugConfig2 (by decide)]
    rfl

/-- Claim C5: the secondary distribution carries a viewer-certificate binding
exactly when the certificate-ARN parameter is non-empty, and then it is the
SNI-only binding with the given ARN. -/
theorem media_viewer_certificate_binding (cfg : Config)
    (h : cfg.USE_GOVCLOUD ≠ some "on") :
    Resource.distribution (media_distribution cfg)
      ∈ (buildFragment cfg).resources
    ∧ CfnField.resolve (buildFragment cfg).conditions
        (media_distribution cfg).config.ViewerCertificate
      = (if cfg.MediaAcmCertificateArn = "" then none
         else some { AcmCertificateArn := cfg.MediaAcmCertificateArn
                     SslSupportMethod := "sni-only" }) := by
  rw [buildFragment_off cfg h]
  constructor
  · simp
  · by_cases hc : cfg.MediaAcmCertificateArn = ""
    · simp [media_distribution, CfnField.resolve, no_media_acm_certificate_arn,
        hc, List.find?]
    · simp [media_distribution, CfnField.resolve, no_media_acm_certificate_arn,
        hc, List.find?]

/-- Witness for claim C5: with the sample non-empty certificate ARN, the
binding is present and SNI-only; with the empty ARN of `bugConfig2`, it is
absent. -/
theorem media_viewer_certificate_binding_witness :
    sampleConfig.USE_GOVCLOUD ≠ some "on"
    ∧ CfnField.resolve (buildFragment sampleConfig).conditions
        (media_distribution sampleConfig).config.ViewerCertificate
      = some { AcmCertificateArn :=
                 "arn:aws:acm:us-east-1:123456789012:certificate/abc"
               SslSupportMethod := "sni-only" }
    ∧ CfnField.resolve (buildFragment bugConfig2).conditions
        (media_distribution bugConfig2).config.ViewerCertificate = none :=
  ⟨by decide,
    ((media_viewer_certificate_binding sampleConfig
      (by decide)).2).trans (by decide),
    ((media_viewer_certificate_binding bugConfig2
      (by decide)).2).trans (by decide)⟩

/-- Claim C6: both condition registrations use the literal name
`NoMediaDistributionAlias`, the template therefore ends with a single
condition under that name whose predicate is the later-registered
certificate-ARN-empty test, and both `If`-gates of the secondary distribution
reference that one name. -/
theorem media_condition_name_collision (cfg : Config)
    (h : cfg.USE_GOVCLOUD ≠ some "on") :
    no_media_distribution_alias = "NoMediaDistributionAlias"
    ∧ no_media_acm_certificate_arn = "NoMediaDistributionAlias"
    ∧ (buildFragment cfg).conditions
        = [("NoMediaDistributionAlias", cfg.MediaAcmCertificateArn == "")]
    ∧ (media_distribution cfg).config.Aliases
        = CfnField.ifNoValue "NoMediaDistributionAlias"
            [cfg.MediaDistributionAlias]
    ∧ (media_distribution cfg).config.ViewerCertificate
        = CfnField.ifNoValue "NoMediaDistributionAlias"
            { AcmCertificateArn := cfg.MediaAcmCertificateArn
              SslSupportMethod := "sni-only" } := by
  refine ⟨rfl, rfl, ?_, rfl, rfl⟩
  rw [buildFragment_off cfg h]

/-- Witness for claim C6 at the sample input (non-empty certificate ARN, so
the surviving condition evaluates to false). -/
theorem media_condition_name_collision_witness :
    sampleConfig.USE_GOVCLOUD ≠ some "on"
    ∧ (buildFragment sampleConfig).conditions
        = [("NoMediaDistributionAlias", false)] :=
  ⟨by decide,
    ((media_condition_name_collision sampleConfig
      (by decide)).2.2.1).trans (by decide)⟩

/-- Counterexample to claim C7 as stated: at the sample input (flag off), the
fragment declares three parameters, not two, and the accumulator holds one
condition, not two. -/
theorem fragment_counts_counterexample :
    sampleConfig.USE_GOVCLOUD ≠ some "on"
    ∧ ¬ ((buildFragment sampleConfig).parameters.length = 2
          ∧ (buildFragment sampleConfig).conditions.length = 2
          ∧ (buildFragment sampleConfig).distributions.length = 2) := by
  constructor
  · decide
  · rw [buildFragment_off sampleConfig (by decide)]
    decide

/-- Claim C7 as amended: with the government-cloud flag off, the fragment
declares exactly three parameters (the comma-delimited alias list for the
primary distribution, the optional alias string for the secondary, and the
certificate-ARN string), exactly two distribution declarations, and - both
condition registrations using the same literal name - exactly one condition
in the accumulator, the later-registered certificate-ARN-empty test. -/
theorem fragment_parameter_condition_distribution_lists (cfg : Config)
    (h : cfg.USE_GOVCLOUD ≠ some "on") :
    (buildFragment cfg).parameters
      = [{ title := "DistributionAliases", paramType := "CommaDelimitedList" },
         { title := "MediaDistributionAlias", paramType := "String" },
         { title := "MediaAcmCertificateArn", paramType := "String" }]
    ∧ (buildFragment cfg).conditions
      = [("NoMediaDistributionAlias", cfg.MediaAcmCertificateArn == "")]
    ∧ (buildFragment cfg).distributions
      = [distribution cfg, media_distribution cfg] := by
  rw [buildFragment_off cfg h]
  exact ⟨rfl, rfl, rfl⟩

/-- Witness for the amended claim C7 at the sample input. -/
theorem fragment_parameter_condition_distribution_lists_witness :
    sampleConfig.USE_GOVCLOUD ≠ some "on"
    ∧ (buildFragment sampleConfig).parameters.length = 3
    ∧ (buildFragment sampleConfig).conditions.length = 1
    ∧ (buildFragment sampleConfig).distributions.length = 2 :=
  ⟨by decide,
    by rw [(fragment_parameter_condition_distribution_lists sampleConfig
      (by decide)).1]; rfl,
    by rw [(fragment_parameter_condition_distribution_lists sampleConfig
      (by decide)).2.1]; rfl,
    by rw [(fragment_parameter_condition_distribution_lists sampleConfig
      (by decide)).2.2]; rfl⟩

/-- Claim C8: each distribution declaration has a single origin pointing at
its own bucket's domain name, a default cache behavior that forwards query
strings and exactly the three CORS-negotiation headers, and the `allow-all`
viewer protocol policy. -/
theorem distribution_origin_and_cache_behavior (cfg : Config) :
    (distribution cfg).config.Origins
      = [{ Id := "Assets"
           DomainName := .getAtt "AssetsBucket" "DomainName"
           OriginAccessIdentity := "" }]
    ∧ (media_distribution cfg).config.Origins
      = [{ Id := "Assets"
           DomainName := .getAtt "PrivateAssetsBucket" "DomainName"
           OriginAccessIdentity := "" }]
    ∧ (distribution cfg).config.DefaultCacheBehavior
      = { TargetOriginId := "Assets"
          ForwardedValues := {
            QueryString := true
            Headers := ["Origin", "Access-Control-Request-Headers",
              "Access-Control-Request-Method"] }
          ViewerProtocolPolicy := "allow-all" }
    ∧ (media_distribution cfg).config.DefaultCacheBehavior
      = { TargetOriginId := "Assets"
          ForwardedValues := {
            QueryString := true
            Headers := ["Origin", "Access-Control-Request-Headers",
              "Access-Control-Request-Method"] }
          ViewerProtocolPolicy := "allow-all" } :=
  ⟨rfl, rfl, rfl, rfl⟩

/-- Claim C9: exactly two bucket declarations are registered, public-read and
private, and apart from the identifier and the access-control mode their
declarations coincide: same versioning status `Enabled`, same deletion policy
`Retain`, same CORS configuration. -/
theorem buckets_differ_only_in_access_control (cfg : Config) :
    (buildFragment cfg).buckets
      = [assets_bucket cfg, private_assets_bucket cfg]
    ∧ (assets_bucket cfg).AccessControl = "PublicRead"
    ∧ (private_assets_bucket cfg).AccessControl = "Private"
    ∧ (assets_bucket cfg).conf = (private_assets_bucket cfg).conf
    ∧ (assets_bucket cfg).conf.VersioningStatus = "Enabled"
    ∧ (assets_bucket cfg).conf.DeletionPolicy = "Retain" := by
  refine ⟨?_, rfl, rfl, rfl, rfl, rfl⟩
  by_cases h : cfg.USE_GOVCLOUD = some "on"
  · rw [buildFragment_on cfg h]; rfl
  · rw [buildFragment_off cfg h]; rfl

/-- Claim C10: the government-cloud gate is exact string equality with `on`:
the distributions, their parameters, the conditions and the
distribution-domain output are present exactly when the environment variable
differs from the literal string `on` (including when it is unset or holds
`ON`, `true` or `1`). -/
theorem govcloud_gate_is_exact_string_equality (cfg : Config) :
    (buildFragment cfg).distributions
      = (if cfg.USE_GOVCLOUD = some "on" then []
         else [distribution cfg, media_distribution cfg])
    ∧ (buildFragment cfg).parameters
      = (if cfg.USE_GOVCLOUD = some "on" then []
         else [{ title := "DistributionAliases"
                 paramType := "CommaDelimitedList" },
               { title := "MediaDistributionAlias", paramType := "String" },
               { title := "MediaAcmCertificateArn", paramType := "String" }])
    ∧ (buildFragment cfg).conditions
      = (if cfg.USE_GOVCLOUD = some "on" then []
         else [("NoMediaDistributionAlias",
           cfg.MediaAcmCertificateArn == "")])
    ∧ (({ title := "AssetsDistributionDomainName"
          Description := "The assest CDN domain name"
          Value := .getAtt "AssetsDistribution" "DomainName" } : OutputDecl)
        ∈ (buildFragment cfg).outputs ↔ cfg.USE_GOVCLOUD ≠ some "on") := by
  by_cases h : cfg.USE_GOVCLOUD = some "on"
  · rw [buildFragment_on cfg h]
    refine ⟨?_, ?_, ?_, ?_⟩
    · rw [if_pos h]; rfl
    · rw [if_pos h]
    · rw [if_pos h]
    · constructor
      · intro hmem
        simp at hmem
      · intro hne
        exact absurd h hne
  · rw [buildFragment_off cfg h]
    refine ⟨?_, ?_, ?_, ?_⟩
    · rw [if_neg h]; rfl
    · rw [if_neg h]
    · rw [if_neg h]
    · constructor
      · intro _
        exact h
      · intro _
        simp

end AwsWebStacks
